import Mathlib

/-!
# KoMo2: the model layer of the Jimulator front-end

A shallow embedding of the decision logic of `KoMo2Model.cpp`,
`CompileLoadModel.cpp` and `DisassemblyModel.cpp`.

* A `std::string` is a list of `char`s (`CppString`).
* A button is represented by its sensitivity flag.
* The objects reachable from a `KoMo2Model` (its main window, its
  `CompileLoadModel`, its `ControlsModel`) are fields of one record, and a member
  function that reaches its parent through `getParent()` is a function on that
  record.
* Calls that leave the model layer (console output, the assembler child, `load`)
  and the notifications sent to the child models are appended to a call log.
* The `numpunct` facet of the global locale, which a `std::stringstream` formats
  integers with, is an argument of the function that uses such a stream.
-/

namespace KoMo2

/-! ## Data model -/

/-- A `std::string`, as the sequence of its `char`s. -/
abbrev CppString := List Char

/-- Modelled from the spec: the enumeration `JimulatorState` is declared in a header
that is not part of the sources at hand. The spec lists `UNLOADED`, `LOADED`,
`RUNNING`, `PAUSED` and an error state; `other` stands for every value that is none
of the four named ones (the `default:` branch of the switches). -/
inductive JimulatorState where
  | UNLOADED
  | LOADED
  | RUNNING
  | PAUSED
  | other (tag : Nat)
  deriving DecidableEq

/-- Modelled from the spec: the enumeration `CompileLoadInnerState` ("whether a
source file has been selected") is declared in a header that is not part of the
sources at hand. The code names `FILE_SELECTED` and `NO_FILE`; `other` stands for
every further value (the `default:` branch of `changeInnerState`). -/
inductive CompileLoadInnerState where
  | FILE_SELECTED
  | NO_FILE
  | other (tag : Nat)
  deriving DecidableEq

/-- The calls that leave the model layer, and the notifications of child models,
in the order in which they are made. -/
inductive Event where
  | stdout (msg : CppString)
  | compile (pathToBin pathToS pathToKMD : CppString)
  | load (pathToKMD : CppString)
  | compileLoadNotified (newState : JimulatorState)
  | controlsNotified (newState : JimulatorState)
  deriving DecidableEq

/-- The members of `CompileLoadModel`; each button is its sensitivity flag. -/
structure CompileLoadModel where
  absolutePathToSelectedFile : CppString
  innerState : CompileLoadInnerState
  compileLoadButton : Bool
  browseButton : Bool
  deriving DecidableEq

/-- The part of `MainWindowView` written by the models: the selected-file label
and the window title. -/
structure MainWindowView where
  selectedFileLabelText : CppString
  title : CppString
  deriving DecidableEq

/-- The members of `KoMo2Model`. The state of the `ControlsModel`, whose source is
not at hand, is a value of an arbitrary type `κ`. -/
structure KoMo2Model (κ : Type) where
  mainWindow : MainWindowView
  absolutePathToProjectRoot : CppString
  compileLoadModel : CompileLoadModel
  controlsModel : κ
  jimulatorState : JimulatorState
  log : List Event

/-- Modelled from the spec: `Model::setButtonState(button, newState)` is defined in
the `Model` base class, which is not part of the sources at hand; the spec says the
state is broadcast "to toggle button enablement", so the button becomes enabled
exactly when `newState` is true. -/
def setButtonState (_button : Bool) (newState : Bool) : Bool := newState

/-- The value `Gtk::RESPONSE_OK` of the toolkit's response enumeration. -/
def RESPONSE_OK : Int := -5

/-- The value `Gtk::RESPONSE_CANCEL` of the toolkit's response enumeration. -/
def RESPONSE_CANCEL : Int := -6

/-! ## String helpers -/

/-- One past the largest `size_t`. -/
def SIZE_LIMIT : Nat := 2 ^ 64

/-- The call `s.substr(0, n)`: the first `n` characters, or all of them when there are
fewer. -/
def substr0 (s : CppString) (n : Nat) : CppString := s.take n

/-- The line terminators that `.` does not match in an ECMAScript regex. -/
def isLineTerminator (c : Char) : Bool := c = '\n' || c = '\r'

/-- The loop of `regexReplaceDirs`: `cur` holds, reversed, the characters of the
current line that follow its last `/` so far. -/
def regexReplaceDirsAux : List Char → List Char → List Char
  | [], cur => cur.reverse
  | c :: rest, cur =>
    if c = '/' then regexReplaceDirsAux rest []
    else if isLineTerminator c then cur.reverse ++ c :: regexReplaceDirsAux rest []
    else regexReplaceDirsAux rest (c :: cur)

/-- The call `regex_replace(s, std::regex("(.*\\/)"), "")`: every match of the greedy
pattern is removed, so that on each line everything up to and including the last
`/` disappears. -/
def regexReplaceDirs (s : CppString) : CppString := regexReplaceDirsAux s []

/-! ## `CompileLoadModel` -/

/-- `CompileLoadModel::makeKmdPath`:
`absolutePath.substr(0, absolutePath.size() - 1).append("kmd")`, the subtraction
being one of `size_t`. -/
def makeKmdPath (absolutePath : CppString) : CppString :=
  substr0 absolutePath ((absolutePath.length + SIZE_LIMIT - 1) % SIZE_LIMIT) ++ "kmd".toList

/-- `CompileLoadModel::changeJimulatorState`, on the members of the
`CompileLoadModel`. -/
def CompileLoadModel.changeJimulatorState (newState : JimulatorState)
    (m : CompileLoadModel) : CompileLoadModel :=
  -- Sets the default button state for compileLoadButton
  let m1 : CompileLoadModel :=
    if m.innerState = CompileLoadInnerState.NO_FILE then
      { m with compileLoadButton := setButtonState m.compileLoadButton false }
    else
      { m with compileLoadButton := setButtonState m.compileLoadButton true }
  -- Sets the state of the browseButton
  match newState with
  | JimulatorState.UNLOADED => { m1 with browseButton := setButtonState m1.browseButton true }
  | JimulatorState.LOADED => { m1 with browseButton := setButtonState m1.browseButton true }
  | JimulatorState.RUNNING =>
    { m1 with browseButton := setButtonState m1.browseButton false,
              compileLoadButton := setButtonState m1.compileLoadButton false }
  | JimulatorState.PAUSED => { m1 with browseButton := setButtonState m1.browseButton true }
  | JimulatorState.other _ => m1

/-! ## `KoMo2Model` -/

/-- `KoMo2Model::changeJimulatorState`. The parameter `ctl` is
`ControlsModel::changeJimulatorState`, whose source is not at hand. -/
def KoMo2Model.changeJimulatorState {κ : Type} (ctl : JimulatorState → κ → κ)
    (newState : JimulatorState) (m : KoMo2Model κ) : KoMo2Model κ :=
  -- No state change, do nothing
  if m.jimulatorState = newState then m
  else
    { m with
      jimulatorState := newState,
      compileLoadModel := m.compileLoadModel.changeJimulatorState newState,
      controlsModel := ctl newState m.controlsModel,
      log := m.log ++ [Event.compileLoadNotified newState, Event.controlsNotified newState] }

/-- `CompileLoadModel::changeInnerState`, which also writes the label and the title of
the parent's main window. -/
def changeInnerState {κ : Type} (val : CompileLoadInnerState) (m : KoMo2Model κ) :
    KoMo2Model κ :=
  let filename := regexReplaceDirs m.compileLoadModel.absolutePathToSelectedFile
  let m1 : KoMo2Model κ :=
    { m with
      mainWindow := { m.mainWindow with selectedFileLabelText := "File: ".toList ++ filename },
      compileLoadModel := { m.compileLoadModel with innerState := val } }
  match val with
  | CompileLoadInnerState.FILE_SELECTED =>
    { m1 with
      compileLoadModel :=
        { m1.compileLoadModel with
          compileLoadButton := setButtonState m1.compileLoadModel.compileLoadButton true },
      mainWindow := { m1.mainWindow with title := " KoMo2 - ".toList ++ filename } }
  | CompileLoadInnerState.NO_FILE =>
    { m1 with
      compileLoadModel :=
        { m1.compileLoadModel with
          compileLoadButton := setButtonState m1.compileLoadModel.compileLoadButton false },
      mainWindow := { m1.mainWindow with title := " KoMo2".toList } }
  | CompileLoadInnerState.other _ => m1

/-- `CompileLoadModel::setAbsolutePathToSelectedFile`. -/
def setAbsolutePathToSelectedFile {κ : Type} (val : CppString) (m : KoMo2Model κ) :
    KoMo2Model κ :=
  { m with compileLoadModel := { m.compileLoadModel with absolutePathToSelectedFile := val } }

/-- `CompileLoadModel::handleResult`; `filename` is what `dialog->get_filename()`
returns. -/
def handleResult {κ : Type} (ctl : JimulatorState → κ → κ) (result : Int)
    (filename : CppString) (m : KoMo2Model κ) : KoMo2Model κ :=
  if result = RESPONSE_OK then
    KoMo2Model.changeJimulatorState ctl JimulatorState.UNLOADED
      (changeInnerState CompileLoadInnerState.FILE_SELECTED
        (setAbsolutePathToSelectedFile filename m))
  else if result = RESPONSE_CANCEL then
    changeInnerState CompileLoadInnerState.NO_FILE (setAbsolutePathToSelectedFile [] m)
  else
    -- Some unexpected behaviour
    changeInnerState CompileLoadInnerState.NO_FILE (setAbsolutePathToSelectedFile [] m)

/-- Appends one event to the call log. -/
def emit {κ : Type} (e : Event) (m : KoMo2Model κ) : KoMo2Model κ :=
  { m with log := m.log ++ [e] }

/-- `CompileLoadModel::onCompileLoadClick`, in the parent process. `waitStatus` is
the status that `wait` stores for the assembler child and `loadStatus` is the value
that `load` returns if it is called. -/
def onCompileLoadClick {κ : Type} (ctl : JimulatorState → κ → κ) (waitStatus loadStatus : Int)
    (m : KoMo2Model κ) : KoMo2Model κ :=
  let path := m.compileLoadModel.absolutePathToSelectedFile
  -- If the length is zero, invalid path
  if path.length = 0 then
    emit (Event.stdout "No file selected!".toList) m
  else
    -- child process: compile the .s program to .kmd
    let m1 := emit (Event.compile (m.absolutePathToProjectRoot ++ "/bin/aasm".toList) path
      (makeKmdPath path)) m
    -- If child process failed
    if waitStatus ≠ 0 then
      emit (Event.stdout "aasm failed - invalid file path!".toList) m1
    else
      -- Perform the load
      let m2 := emit (Event.load (makeKmdPath path)) m1
      -- If load function failed
      if loadStatus ≠ 0 then
        emit (Event.stdout "Error loading file into KoMo2".toList) m2
      else
        KoMo2Model.changeJimulatorState ctl JimulatorState.LOADED
          (emit (Event.stdout "File loaded!".toList) m2)

/-- The member functions that `KoMo2Model::handleKeyPress` can invoke. -/
inductive Handler where
  | onBrowseClick
  | onCompileLoadClick
  | onPauseResumeClick
  | onSingleStepExecuteClick
  | onHaltExecutionClick
  | onHelpClick
  deriving DecidableEq

/-- `KoMo2Model::handleKeyPress` for a key event with fields `keyval` and `state`:
the handler that the switch invokes, if any, and the returned `bool`. -/
def handleKeyPress {κ : Type} (keyval state : Nat) (m : KoMo2Model κ) : Option Handler × Bool :=
  let invoked : Option Handler :=
    -- Ctrl + (lower case l)
    if keyval = 108 then
      if state = 4 ∧ m.jimulatorState ≠ JimulatorState.RUNNING then some Handler.onBrowseClick
      else none
    -- ctrl + (upper case L)
    else if keyval = 76 then
      if state = 6 ∧ m.jimulatorState ≠ JimulatorState.RUNNING then some Handler.onBrowseClick
      else none
    -- Ctrl + (lower case r)
    else if keyval = 114 then
      if state = 4 ∧ (m.jimulatorState ≠ JimulatorState.RUNNING ∧
          m.compileLoadModel.innerState ≠ CompileLoadInnerState.NO_FILE) then
        some Handler.onCompileLoadClick
      else none
    -- Ctrl + (upper case R)
    else if keyval = 82 then
      if state = 6 ∧ (m.jimulatorState ≠ JimulatorState.RUNNING ∧
          m.compileLoadModel.innerState ≠ CompileLoadInnerState.NO_FILE) then
        some Handler.onCompileLoadClick
      else none
    -- F5
    else if keyval = 65474 then
      if m.jimulatorState ≠ JimulatorState.UNLOADED then some Handler.onPauseResumeClick
      else none
    -- F6
    else if keyval = 65475 then
      if m.jimulatorState = JimulatorState.LOADED ∨ m.jimulatorState = JimulatorState.PAUSED then
        some Handler.onSingleStepExecuteClick
      else none
    -- F1
    else if keyval = 65470 then
      if m.jimulatorState = JimulatorState.RUNNING ∨ m.jimulatorState = JimulatorState.PAUSED then
        some Handler.onHaltExecutionClick
      else none
    -- F12
    else if keyval = 65481 then some Handler.onHelpClick
    -- Otherwise
    else none
  (invoked, false)

/-! ## `DisassemblyModel` -/

/-- The digit characters used by an upper-case hexadecimal stream. -/
def hexDigitChar (d : Nat) : Char :=
  if d = 0 then '0' else if d = 1 then '1' else if d = 2 then '2' else if d = 3 then '3'
  else if d = 4 then '4' else if d = 5 then '5' else if d = 6 then '6' else if d = 7 then '7'
  else if d = 8 then '8' else if d = 9 then '9' else if d = 10 then 'A' else if d = 11 then 'B'
  else if d = 12 then 'C' else if d = 13 then 'D' else if d = 14 then 'E' else 'F'

/-- The digit loop of `hexDigits`: the digits are produced from the least significant
one and pushed in front of `acc`. -/
def hexDigitsAux : Nat → Nat → List Char → List Char
  | 0, _, acc => acc
  | fuel + 1, n, acc =>
    let acc1 := hexDigitChar (n % 16) :: acc
    if n / 16 = 0 then acc1 else hexDigitsAux fuel (n / 16) acc1

/-- What `stream << std::uppercase << std::hex << n` writes without padding: the
base-16 digits of `n`, most significant first, with no leading zero (one digit for
zero). -/
def hexDigits (n : Nat) : List Char := hexDigitsAux (n + 1) n []

/-- The effect of `std::setfill(c)` and `std::setw(w)` on one right-adjusted output:
fill characters are put in front when the text is shorter than `w`. -/
def padLeft (w : Nat) (c : Char) (s : List Char) : List Char :=
  List.replicate (w - s.length) c ++ s

/-- The `std::numpunct<char>` facet of the global locale, which a default-constructed
`std::stringstream` formats numbers with: `grouping` holds the values of the
characters of `grouping()` (the size of the rightmost digit group first) and
`thousandsSep` is `thousands_sep()`. -/
structure Numpunct where
  grouping : List Nat
  thousandsSep : Char
  deriving DecidableEq

/-- The facet of the classic `"C"` locale: no grouping. -/
def classicNumpunct : Numpunct := { grouping := [], thousandsSep := ',' }

/-- A facet that groups digits by three with a comma, as that of `en_US.UTF-8`. -/
def groupingNumpunct : Numpunct := { grouping := [3], thousandsSep := ',' }

/-- Whether a grouping character asks for a group: its value as a `signed char` is
positive and is not `CHAR_MAX`. -/
def activeGroup (g : Nat) : Bool := decide (0 < g) && decide (g < 127)

/-- Whether the stream groups digits at all: `grouping()` is non-empty and its first
character asks for a group. -/
def useGrouping (np : Numpunct) : Bool :=
  match np.grouping with
  | [] => false
  | g :: _ => activeGroup g

/-- The grouping loop of the number formatter, on the digits least significant first:
while more than `g` digits are left and `g` asks for a group, `g` digits and a
separator are written; `gs` holds the grouping characters after `g`, and the last one
is used again when they run out. -/
def addGroupingAux (sep : Char) : Nat → List Nat → Nat → List Char → List Char
  | 0, _, _, ds => ds
  | fuel + 1, gs, g, ds =>
    if activeGroup g ∧ g < ds.length then
      ds.take g ++ sep :: addGroupingAux sep fuel gs.tail (gs.headD g) (ds.drop g)
    else ds

/-- The digits `ds` (most significant first) with the thousands separators of the
facet inserted. -/
def addGrouping (np : Numpunct) (ds : List Char) : List Char :=
  match np.grouping with
  | [] => ds
  | g :: gs => (addGroupingAux np.thousandsSep ds.length gs g ds.reverse).reverse

/-- `DisassemblyModel::intToFormattedHexString`; `formatMe` is a `uint32_t` and `np` is
the `numpunct` facet of the global locale at the time of the call, which the stream
`stream` takes at its construction:
`stream << "0x" << setfill('0') << setw(8) << uppercase << hex << formatMe`. The
digits are grouped first and the grouped text is then padded to the width. -/
def intToFormattedHexString (np : Numpunct) (formatMe : Nat) : CppString :=
  "0x".toList ++ padLeft 8 '0' (addGrouping np (hexDigits formatMe))

/-- `DisassemblyModel::incrementMemoryIndex`: `memoryIndex += val * 4` on `uint32_t`
operands; the result is the new `memoryIndex`. -/
def incrementMemoryIndex (memoryIndex val : Nat) : Nat :=
  (memoryIndex + (val * 4) % 2 ^ 32) % 2 ^ 32

/-- The `k` low base-16 digits of `n`, most significant first, leading zeros
included: the fixed-width reading of "zero-padded base-16 digits". -/
def fixedHex : Nat → Nat → List Char
  | 0, _ => []
  | k + 1, n => fixedHex k (n / 16) ++ [hexDigitChar (n % 16)]

/-- A concrete model in state `js` with selected path `path` and inner state `inner`,
an empty call log and a trivial controls model. -/
def sampleModel (js : JimulatorState) (path : CppString) (inner : CompileLoadInnerState) :
    KoMo2Model Unit :=
  { mainWindow := { selectedFileLabelText := "File: ".toList, title := " KoMo2".toList },
    absolutePathToProjectRoot := "/opt/komo2".toList,
    compileLoadModel :=
      { absolutePathToSelectedFile := path, innerState := inner,
        compileLoadButton := false, browseButton := true },
    controlsModel := (),
    jimulatorState := js,
    log := [] }

/-! ## Auxiliary lemmas -/

theorem fixedHex_length (k n : Nat) : (fixedHex k n).length = k := by
  induction k generalizing n with
  | zero => rfl
  | succ k ih => simp [fixedHex, ih]

theorem fixedHex_zero (k : Nat) : fixedHex k 0 = List.replicate k '0' := by
  induction k with
  | zero => rfl
  | succ k ih =>
    simp only [fixedHex, Nat.zero_div, Nat.zero_mod, ih]
    rw [List.replicate_succ' k '0']
    rfl

theorem hexDigitChar_mem (d : Nat) : hexDigitChar d ∈ "0123456789ABCDEF".toList := by
  by_cases h : d < 15
  · interval_cases d <;> decide
  · have hF : hexDigitChar d = 'F' := by
      rw [hexDigitChar]
      repeat rw [if_neg (by omega)]
    rw [hF]
    decide

theorem fixedHex_mem (k n : Nat) : ∀ c ∈ fixedHex k n, c ∈ "0123456789ABCDEF".toList := by
  induction k generalizing n with
  | zero => intro c hc; simp [fixedHex] at hc
  | succ k ih =>
    intro c hc
    simp only [fixedHex, List.mem_append, List.mem_singleton] at hc
    rcases hc with hc | hc
    · exact ih _ c hc
    · rw [hc]; exact hexDigitChar_mem _

theorem padLeft_hexDigitsAux (k : Nat) :
    ∀ (fuel n : Nat) (acc : List Char), n < 16 ^ (k + 1) → n < fuel →
      padLeft (k + 1 + acc.length) '0' (hexDigitsAux fuel n acc) = fixedHex (k + 1) n ++ acc := by
  induction k with
  | zero =>
    intro fuel n acc hn hf
    cases fuel with
    | zero => omega
    | succ fuel =>
      have h0 : n / 16 = 0 := by omega
      have hk : 0 + 1 + acc.length - (acc.length + 1) = 0 := by omega
      simp [hexDigitsAux, h0, padLeft, fixedHex, hk]
  | succ k ih =>
    intro fuel n acc hn hf
    cases fuel with
    | zero => omega
    | succ fuel =>
      by_cases h0 : n / 16 = 0
      · have hk : k + 1 + 1 + acc.length - (acc.length + 1) = k + 1 := by omega
        simp only [hexDigitsAux, h0, if_true, padLeft, List.length_cons, hk]
        rw [fixedHex, h0, fixedHex_zero]
        simp
      · have h1 : n / 16 < 16 ^ (k + 1) := by
          rw [Nat.div_lt_iff_lt_mul (by norm_num)]
          rw [pow_succ] at hn
          exact hn
        have h2 : n / 16 < fuel := by omega
        have h := ih fuel (n / 16) (hexDigitChar (n % 16) :: acc) h1 h2
        simp only [hexDigitsAux, h0, if_false]
        have hl : k + 1 + 1 + acc.length = k + 1 + (hexDigitChar (n % 16) :: acc).length := by
          simp only [List.length_cons]; omega
        rw [hl, h]
        conv_rhs => rw [fixedHex]
        simp

theorem addGrouping_of_not_useGrouping (np : Numpunct) (h : useGrouping np = false)
    (ds : List Char) : addGrouping np ds = ds := by
  unfold addGrouping
  unfold useGrouping at h
  cases hg : np.grouping with
  | nil => rfl
  | cons g gs =>
    rw [hg] at h
    simp only [] at h
    cases hl : ds.length with
    | zero => simp [addGroupingAux]
    | succ k => simp [addGroupingAux, h]

theorem intToFormattedHexString_eq (np : Numpunct) (hnp : useGrouping np = false) (n : Nat)
    (h : n < 2 ^ 32) :
    intToFormattedHexString np n = '0' :: 'x' :: fixedHex 8 n := by
  have h8 := padLeft_hexDigitsAux 7 (n + 1) n [] (by norm_num at h ⊢; exact h) (by omega)
  simp only [List.length_nil, Nat.add_zero, List.append_nil] at h8
  unfold intToFormattedHexString
  rw [addGrouping_of_not_useGrouping np hnp]
  unfold hexDigits
  rw [h8]
  rfl

theorem changeJimulatorState_jimulatorState {κ : Type} (ctl : JimulatorState → κ → κ)
    (newState : JimulatorState) (m : KoMo2Model κ) :
    (KoMo2Model.changeJimulatorState ctl newState m).jimulatorState = newState := by
  unfold KoMo2Model.changeJimulatorState
  split_ifs with h
  · exact h
  · rfl

theorem changeJimulatorState_same {κ : Type} (ctl : JimulatorState → κ → κ)
    (newState : JimulatorState) (m : KoMo2Model κ) (h : m.jimulatorState = newState) :
    KoMo2Model.changeJimulatorState ctl newState m = m := by
  unfold KoMo2Model.changeJimulatorState
  rw [if_pos h]

theorem compileLoad_changeJimulatorState_path (newState : JimulatorState)
    (c : CompileLoadModel) :
    (c.changeJimulatorState newState).absolutePathToSelectedFile = c.absolutePathToSelectedFile ∧
      (c.changeJimulatorState newState).innerState = c.innerState := by
  unfold CompileLoadModel.changeJimulatorState
  cases newState <;> simp only [] <;> split_ifs <;> exact ⟨rfl, rfl⟩

/-! ## The claims -/

/-- C1. `onCompileLoadClick`, with the wait status of the assembler child and the
return value of `load` as inputs: when the selected path is non-empty and both
statuses are 0 the Jimulator state ends as `LOADED`; in every other case the
Jimulator state, the compile-load model, the controls model and the main window
are left as they were. Only events are appended to the call log, and a `load` event
is among them exactly when the path is non-empty and the assembler status is 0, so
`load` is never called after a non-zero assembler status. -/
theorem onCompileLoadClick_loaded_iff {κ : Type} (ctl : JimulatorState → κ → κ)
    (waitStatus loadStatus : Int) (m : KoMo2Model κ) :
    ((m.compileLoadModel.absolutePathToSelectedFile ≠ [] ∧ waitStatus = 0 ∧ loadStatus = 0) →
        (onCompileLoadClick ctl waitStatus loadStatus m).jimulatorState =
          JimulatorState.LOADED) ∧
      (¬ (m.compileLoadModel.absolutePathToSelectedFile ≠ [] ∧ waitStatus = 0 ∧ loadStatus = 0) →
        (onCompileLoadClick ctl waitStatus loadStatus m).jimulatorState = m.jimulatorState ∧
        (onCompileLoadClick ctl waitStatus loadStatus m).compileLoadModel = m.compileLoadModel ∧
        (onCompileLoadClick ctl waitStatus loadStatus m).controlsModel = m.controlsModel ∧
        (onCompileLoadClick ctl waitStatus loadStatus m).mainWindow = m.mainWindow) ∧
      ∃ added : List Event,
        (onCompileLoadClick ctl waitStatus loadStatus m).log = m.log ++ added ∧
        ((∃ p, Event.load p ∈ added) ↔
          (m.compileLoadModel.absolutePathToSelectedFile ≠ [] ∧ waitStatus = 0)) ∧
        (waitStatus ≠ 0 → ∀ p, Event.load p ∉ added) := by
  by_cases hp : m.compileLoadModel.absolutePathToSelectedFile = []
  · have hrun : onCompileLoadClick ctl waitStatus loadStatus m =
        emit (Event.stdout "No file selected!".toList) m := by
      simp [onCompileLoadClick, hp]
    rw [hrun]
    refine ⟨fun h => absurd hp h.1, fun _ => ⟨rfl, rfl, rfl, rfl⟩, ?_⟩
    refine ⟨[Event.stdout "No file selected!".toList], rfl, ?_, ?_⟩
    · simp [hp]
    · intro _ p; simp
  · have hlen : m.compileLoadModel.absolutePathToSelectedFile.length ≠ 0 := by
      simpa [List.length_eq_zero] using hp
    by_cases hw : waitStatus = 0
    · by_cases hl : loadStatus = 0
      · have hrun : onCompileLoadClick ctl waitStatus loadStatus m =
            KoMo2Model.changeJimulatorState ctl JimulatorState.LOADED
              (emit (Event.stdout "File loaded!".toList)
                (emit (Event.load (makeKmdPath m.compileLoadModel.absolutePathToSelectedFile))
                  (emit (Event.compile (m.absolutePathToProjectRoot ++ "/bin/aasm".toList)
                    m.compileLoadModel.absolutePathToSelectedFile
                    (makeKmdPath m.compileLoadModel.absolutePathToSelectedFile)) m))) := by
          simp [onCompileLoadClick, hlen, hw, hl]
        rw [hrun]
        refine ⟨fun _ => changeJimulatorState_jimulatorState _ _ _,
          fun h => absurd ⟨hp, hw, hl⟩ h, ?_⟩
        by_cases hs : m.jimulatorState = JimulatorState.LOADED
        · rw [changeJimulatorState_same _ _ _ (by simpa [emit] using hs)]
          refine ⟨[Event.compile (m.absolutePathToProjectRoot ++ "/bin/aasm".toList)
              m.compileLoadModel.absolutePathToSelectedFile
              (makeKmdPath m.compileLoadModel.absolutePathToSelectedFile),
            Event.load (makeKmdPath m.compileLoadModel.absolutePathToSelectedFile),
            Event.stdout "File loaded!".toList], by simp [emit], ?_, fun h => absurd hw h⟩
          simp [hp, hw]
        · refine ⟨[Event.compile (m.absolutePathToProjectRoot ++ "/bin/aasm".toList)
              m.compileLoadModel.absolutePathToSelectedFile
              (makeKmdPath m.compileLoadModel.absolutePathToSelectedFile),
            Event.load (makeKmdPath m.compileLoadModel.absolutePathToSelectedFile),
            Event.stdout "File loaded!".toList,
            Event.compileLoadNotified JimulatorState.LOADED,
            Event.controlsNotified JimulatorState.LOADED], ?_, ?_, fun h => absurd hw h⟩
          · simp [KoMo2Model.changeJimulatorState, emit, hs]
          · simp [hp, hw]
      · have hrun : onCompileLoadClick ctl waitStatus loadStatus m =
            emit (Event.stdout "Error loading file into KoMo2".toList)
              (emit (Event.load (makeKmdPath m.compileLoadModel.absolutePathToSelectedFile))
                (emit (Event.compile (m.absolutePathToProjectRoot ++ "/bin/aasm".toList)
                  m.compileLoadModel.absolutePathToSelectedFile
                  (makeKmdPath m.compileLoadModel.absolutePathToSelectedFile)) m)) := by
          simp [onCompileLoadClick, hlen, hw, hl]
        rw [hrun]
        refine ⟨fun h => absurd h.2.2 hl, fun _ => ⟨rfl, rfl, rfl, rfl⟩, ?_⟩
        refine ⟨[Event.compile (m.absolutePathToProjectRoot ++ "/bin/aasm".toList)
            m.compileLoadModel.absolutePathToSelectedFile
            (makeKmdPath m.compileLoadModel.absolutePathToSelectedFile),
          Event.load (makeKmdPath m.compileLoadModel.absolutePathToSelectedFile),
          Event.stdout "Error loading file into KoMo2".toList], by simp [emit], ?_,
          fun h => absurd hw h⟩
        simp [hp, hw]
    · have hrun : onCompileLoadClick ctl waitStatus loadStatus m =
          emit (Event.stdout "aasm failed - invalid file path!".toList)
            (emit (Event.compile (m.absolutePathToProjectRoot ++ "/bin/aasm".toList)
              m.compileLoadModel.absolutePathToSelectedFile
              (makeKmdPath m.compileLoadModel.absolutePathToSelectedFile)) m) := by
        simp [onCompileLoadClick, hlen, hw]
      rw [hrun]
      refine ⟨fun h => absurd h.2.1 hw, fun _ => ⟨rfl, rfl, rfl, rfl⟩, ?_⟩
      refine ⟨[Event.compile (m.absolutePathToProjectRoot ++ "/bin/aasm".toList)
          m.compileLoadModel.absolutePathToSelectedFile
          (makeKmdPath m.compileLoadModel.absolutePathToSelectedFile),
        Event.stdout "aasm failed - invalid file path!".toList], by simp [emit], ?_, ?_⟩
      · simp [hw]
      · intro _ p; simp

/-- Witness for C1: with the path `/home/user/demo.s` selected and both statuses 0 the
state goes from `UNLOADED` to `LOADED`; with assembler status 1 it stays `UNLOADED`
and the log holds no `load` event. -/
theorem onCompileLoadClick_loaded_iff_witness :
    (onCompileLoadClick (fun _ u => u) 0 0
        (sampleModel JimulatorState.UNLOADED "/home/user/demo.s".toList
          CompileLoadInnerState.FILE_SELECTED)).jimulatorState = JimulatorState.LOADED ∧
      (onCompileLoadClick (fun _ u => u) 1 0
        (sampleModel JimulatorState.UNLOADED "/home/user/demo.s".toList
          CompileLoadInnerState.FILE_SELECTED)).jimulatorState = JimulatorState.UNLOADED :=
  ⟨(onCompileLoadClick_loaded_iff (fun _ u => u) 0 0
      (sampleModel JimulatorState.UNLOADED "/home/user/demo.s".toList
        CompileLoadInnerState.FILE_SELECTED)).1 ⟨by decide, rfl, rfl⟩,
    ((onCompileLoadClick_loaded_iff (fun _ u => u) 1 0
      (sampleModel JimulatorState.UNLOADED "/home/user/demo.s".toList
        CompileLoadInnerState.FILE_SELECTED)).2.1 (by decide)).1⟩

/-- C2. `KoMo2Model::changeJimulatorState(newState)`: the stored state afterwards is
`newState`; when `newState` differs from the prior state the compile-load model and
the controls model are each notified once with `newState` (and only the state, the
two child models and the log change); when `newState` equals the prior state
nothing changes; and a second call with the same argument changes nothing. -/
theorem changeJimulatorState_spec {κ : Type} (ctl : JimulatorState → κ → κ)
    (newState : JimulatorState) (m : KoMo2Model κ) :
    (KoMo2Model.changeJimulatorState ctl newState m).jimulatorState = newState ∧
      (m.jimulatorState ≠ newState →
        (KoMo2Model.changeJimulatorState ctl newState m).log =
          m.log ++ [Event.compileLoadNotified newState, Event.controlsNotified newState] ∧
        (KoMo2Model.changeJimulatorState ctl newState m).compileLoadModel =
          m.compileLoadModel.changeJimulatorState newState ∧
        (KoMo2Model.changeJimulatorState ctl newState m).controlsModel =
          ctl newState m.controlsModel ∧
        (KoMo2Model.changeJimulatorState ctl newState m).mainWindow = m.mainWindow ∧
        (KoMo2Model.changeJimulatorState ctl newState m).absolutePathToProjectRoot =
          m.absolutePathToProjectRoot) ∧
      (m.jimulatorState = newState → KoMo2Model.changeJimulatorState ctl newState m = m) ∧
      KoMo2Model.changeJimulatorState ctl newState
          (KoMo2Model.changeJimulatorState ctl newState m) =
        KoMo2Model.changeJimulatorState ctl newState m := by
  refine ⟨changeJimulatorState_jimulatorState ctl newState m, ?_,
    changeJimulatorState_same ctl newState m,
    changeJimulatorState_same ctl newState _ (changeJimulatorState_jimulatorState ctl newState m)⟩
  intro h
  simp [KoMo2Model.changeJimulatorState, h]

/-- Witness for C2: going from `UNLOADED` to `RUNNING` notifies both child models with
`RUNNING`, and asking for `UNLOADED` in state `UNLOADED` changes nothing. -/
theorem changeJimulatorState_spec_witness :
    (KoMo2Model.changeJimulatorState (fun _ u => u) JimulatorState.RUNNING
        (sampleModel JimulatorState.UNLOADED [] CompileLoadInnerState.NO_FILE)).log =
        [Event.compileLoadNotified JimulatorState.RUNNING,
          Event.controlsNotified JimulatorState.RUNNING] ∧
      KoMo2Model.changeJimulatorState (fun _ u => u) JimulatorState.UNLOADED
        (sampleModel JimulatorState.UNLOADED [] CompileLoadInnerState.NO_FILE) =
        sampleModel JimulatorState.UNLOADED [] CompileLoadInnerState.NO_FILE :=
  ⟨((changeJimulatorState_spec (fun _ u => u) JimulatorState.RUNNING
      (sampleModel JimulatorState.UNLOADED [] CompileLoadInnerState.NO_FILE)).2.1
        (by decide)).1,
    (changeJimulatorState_spec (fun _ u => u) JimulatorState.UNLOADED
      (sampleModel JimulatorState.UNLOADED [] CompileLoadInnerState.NO_FILE)).2.2.1 rfl⟩

/-- C3. `CompileLoadModel::changeJimulatorState(newState)` sets the buttons by this
table, for every inner state: for `RUNNING` both buttons end disabled; for
`UNLOADED`, `LOADED` and `PAUSED` the browse button ends enabled and the
compile-load button ends enabled exactly when the inner state is not `NO_FILE`; for
any other state the browse button is unchanged and the compile-load button ends
enabled exactly when the inner state is not `NO_FILE`. The selected path and the
inner state are never changed. -/
theorem compileLoad_changeJimulatorState_table (newState : JimulatorState)
    (c : CompileLoadModel) :
    (newState = JimulatorState.RUNNING →
        (c.changeJimulatorState newState).browseButton = false ∧
        (c.changeJimulatorState newState).compileLoadButton = false) ∧
      ((newState = JimulatorState.UNLOADED ∨ newState = JimulatorState.LOADED ∨
          newState = JimulatorState.PAUSED) →
        (c.changeJimulatorState newState).browseButton = true ∧
        ((c.changeJimulatorState newState).compileLoadButton = true ↔
          c.innerState ≠ CompileLoadInnerState.NO_FILE)) ∧
      ((newState ≠ JimulatorState.RUNNING ∧ newState ≠ JimulatorState.UNLOADED ∧
          newState ≠ JimulatorState.LOADED ∧ newState ≠ JimulatorState.PAUSED) →
        (c.changeJimulatorState newState).browseButton = c.browseButton ∧
        ((c.changeJimulatorState newState).compileLoadButton = true ↔
          c.innerState ≠ CompileLoadInnerState.NO_FILE)) ∧
      (c.changeJimulatorState newState).absolutePathToSelectedFile =
        c.absolutePathToSelectedFile ∧
      (c.changeJimulatorState newState).innerState = c.innerState := by
  refine ⟨?_, ?_, ?_, compileLoad_changeJimulatorState_path newState c⟩
  · rintro rfl
    exact ⟨rfl, rfl⟩
  · intro h
    by_cases hi : c.innerState = CompileLoadInnerState.NO_FILE
    · rcases h with rfl | rfl | rfl <;>
        simp [CompileLoadModel.changeJimulatorState, setButtonState, hi]
    · rcases h with rfl | rfl | rfl <;>
        simp [CompileLoadModel.changeJimulatorState, setButtonState, hi]
  · rintro ⟨h1, h2, h3, h4⟩
    cases newState with
    | UNLOADED => exact absurd rfl h2
    | LOADED => exact absurd rfl h3
    | RUNNING => exact absurd rfl h1
    | PAUSED => exact absurd rfl h4
    | other t =>
      by_cases hi : c.innerState = CompileLoadInnerState.NO_FILE <;>
        simp [CompileLoadModel.changeJimulatorState, setButtonState, hi]

/-- Witness for C3: the three rows of the table on a model with a file selected and
both buttons disabled. -/
theorem compileLoad_changeJimulatorState_table_witness :
    (CompileLoadModel.changeJimulatorState JimulatorState.RUNNING
        ⟨"/a.s".toList, CompileLoadInnerState.FILE_SELECTED, true, true⟩).compileLoadButton
        = false ∧
      (CompileLoadModel.changeJimulatorState JimulatorState.PAUSED
        ⟨"/a.s".toList, CompileLoadInnerState.FILE_SELECTED, false, false⟩).browseButton
        = true ∧
      (CompileLoadModel.changeJimulatorState (JimulatorState.other 0)
        ⟨"/a.s".toList, CompileLoadInnerState.FILE_SELECTED, false, false⟩).browseButton
        = false :=
  ⟨((compileLoad_changeJimulatorState_table JimulatorState.RUNNING
      ⟨"/a.s".toList, CompileLoadInnerState.FILE_SELECTED, true, true⟩).1 rfl).2,
    ((compileLoad_changeJimulatorState_table JimulatorState.PAUSED
      ⟨"/a.s".toList, CompileLoadInnerState.FILE_SELECTED, false, false⟩).2.1
        (Or.inr (Or.inr rfl))).1,
    ((compileLoad_changeJimulatorState_table (JimulatorState.other 0)
      ⟨"/a.s".toList, CompileLoadInnerState.FILE_SELECTED, false, false⟩).2.2.1
        (by decide)).1⟩

/-- C4. `CompileLoadModel::handleResult(result, dialog)`: when `result` is
`RESPONSE_OK` the selected path becomes the dialog's filename, the inner state
becomes `FILE_SELECTED` and the Jimulator state ends as `UNLOADED`; for every other
result the selected path becomes the empty string, the inner state becomes
`NO_FILE` and the Jimulator state is left unchanged. -/
theorem handleResult_spec {κ : Type} (ctl : JimulatorState → κ → κ) (result : Int)
    (filename : CppString) (m : KoMo2Model κ) :
    (result = RESPONSE_OK →
        (handleResult ctl result filename m).compileLoadModel.absolutePathToSelectedFile =
          filename ∧
        (handleResult ctl result filename m).compileLoadModel.innerState =
          CompileLoadInnerState.FILE_SELECTED ∧
        (handleResult ctl result filename m).jimulatorState = JimulatorState.UNLOADED) ∧
      (result ≠ RESPONSE_OK →
        (handleResult ctl result filename m).compileLoadModel.absolutePathToSelectedFile = [] ∧
        (handleResult ctl result filename m).compileLoadModel.innerState =
          CompileLoadInnerState.NO_FILE ∧
        (handleResult ctl result filename m).jimulatorState = m.jimulatorState) := by
  constructor
  · intro h
    unfold handleResult
    rw [if_pos h]
    refine ⟨?_, ?_, changeJimulatorState_jimulatorState _ _ _⟩
    · unfold KoMo2Model.changeJimulatorState
      split_ifs
      · rfl
      · exact (compileLoad_changeJimulatorState_path _ _).1
    · unfold KoMo2Model.changeJimulatorState
      split_ifs
      · rfl
      · exact (compileLoad_changeJimulatorState_path _ _).2
  · intro h
    unfold handleResult
    rw [if_neg h]
    split_ifs <;> exact ⟨rfl, rfl, rfl⟩

/-- Witness for C4: `RESPONSE_OK` with `/home/user/demo.s` while `PAUSED`, and
`RESPONSE_CANCEL` while `PAUSED` with a file selected before. -/
theorem handleResult_spec_witness :
    (handleResult (fun _ u => u) (-5) "/home/user/demo.s".toList
        (sampleModel JimulatorState.PAUSED [] CompileLoadInnerState.NO_FILE)).jimulatorState =
        JimulatorState.UNLOADED ∧
      (handleResult (fun _ u => u) (-6) "/home/user/demo.s".toList
        (sampleModel JimulatorState.PAUSED "/a.s".toList
          CompileLoadInnerState.FILE_SELECTED)).compileLoadModel.innerState =
        CompileLoadInnerState.NO_FILE :=
  ⟨((handleResult_spec (fun _ u => u) (-5) "/home/user/demo.s".toList
      (sampleModel JimulatorState.PAUSED [] CompileLoadInnerState.NO_FILE)).1 rfl).2.2,
    ((handleResult_spec (fun _ u => u) (-6) "/home/user/demo.s".toList
      (sampleModel JimulatorState.PAUSED "/a.s".toList
        CompileLoadInnerState.FILE_SELECTED)).2 (by decide)).2.1⟩

/-- C5. `makeKmdPath` removes the `s` extension and appends `kmd`: for every string
`q` (a `std::string`, so that the size of `q ++ "s"` is a `size_t`),
`makeKmdPath (q ++ "s") = q ++ "kmd"`; the directory part and the dot are kept and
the result is two characters longer than the input. -/
theorem makeKmdPath_s (q : CppString) (hq : q.length + 1 < SIZE_LIMIT) :
    makeKmdPath (q ++ "s".toList) = q ++ "kmd".toList ∧
      (makeKmdPath (q ++ "s".toList)).length = (q ++ "s".toList).length + 2 := by
  have hlen : (q ++ "s".toList).length = q.length + 1 := by simp
  have hn : ((q ++ "s".toList).length + SIZE_LIMIT - 1) % SIZE_LIMIT = q.length := by
    rw [hlen]
    have h1 : q.length + 1 + SIZE_LIMIT - 1 = q.length + SIZE_LIMIT := by omega
    rw [h1, Nat.add_mod_right]
    exact Nat.mod_eq_of_lt (by omega)
  have hmk : makeKmdPath (q ++ "s".toList) = q ++ "kmd".toList := by
    unfold makeKmdPath substr0
    rw [hn, List.take_left' rfl]
  refine ⟨hmk, ?_⟩
  rw [hmk]
  simp

/-- Witness for C5: `/home/user/demo.s` maps to `/home/user/demo.kmd`. -/
theorem makeKmdPath_s_witness :
    "/home/user/demo.".toList.length + 1 < SIZE_LIMIT ∧
      makeKmdPath ("/home/user/demo.".toList ++ "s".toList) =
        "/home/user/demo.".toList ++ "kmd".toList :=
  ⟨by decide, (makeKmdPath_s "/home/user/demo.".toList (by decide)).1⟩

/-- C6, as the claim states it, fails: for the input `/home/user/demo.s` the result
of `makeKmdPath` is not `home/user/demo.kmd`. -/
theorem makeKmdPath_documented_example_fails :
    makeKmdPath "/home/user/demo.s".toList ≠ "home/user/demo.kmd".toList := by
  decide

/-- C6, amended: for the input `/home/user/demo.s`, `makeKmdPath` returns
`/home/user/demo.kmd`; the leading `/` is kept. -/
theorem makeKmdPath_documented_example :
    makeKmdPath "/home/user/demo.s".toList = "/home/user/demo.kmd".toList := by
  decide

/-- The format of `intToFormattedHexString` when the global locale does not group
digits (as the classic locale): for every 32-bit unsigned `n` the result is exactly
10 characters long, starts with `0x`, and its remaining 8 characters are the
zero-padded base-16 digits of `n`, most significant first, each drawn from `0`-`9`
and capital `A`-`F`. -/
theorem intToFormattedHexString_format (np : Numpunct) (hnp : useGrouping np = false)
    (n : Nat) (h : n < 2 ^ 32) :
    (intToFormattedHexString np n).length = 10 ∧
      (intToFormattedHexString np n).take 2 = "0x".toList ∧
      (intToFormattedHexString np n).drop 2 =
        [hexDigitChar (n / 16 ^ 7 % 16), hexDigitChar (n / 16 ^ 6 % 16),
          hexDigitChar (n / 16 ^ 5 % 16), hexDigitChar (n / 16 ^ 4 % 16),
          hexDigitChar (n / 16 ^ 3 % 16), hexDigitChar (n / 16 ^ 2 % 16),
          hexDigitChar (n / 16 ^ 1 % 16), hexDigitChar (n / 16 ^ 0 % 16)] ∧
      (∀ d, d < 16 → hexDigitChar d = "0123456789ABCDEF".toList.getD d ' ') ∧
      ∀ c ∈ (intToFormattedHexString np n).drop 2, c ∈ "0123456789ABCDEF".toList := by
  rw [intToFormattedHexString_eq np hnp n h]
  refine ⟨by simp [fixedHex_length], rfl, ?_, ?_, ?_⟩
  · simp [fixedHex, Nat.div_div_eq_div_mul]
  · intro d hd
    interval_cases d <;> rfl
  · intro c hc
    exact fixedHex_mem 8 n c (by simpa using hc)

/-- In the classic locale 0 gives `0x00000000`, 255 gives `0x000000FF`, 4294967295
gives `0xFFFFFFFF`, and 3735928559 gives ten characters ending in `DEADBEEF`. -/
theorem intToFormattedHexString_format_classic :
    intToFormattedHexString classicNumpunct 0 = "0x00000000".toList ∧
      intToFormattedHexString classicNumpunct 255 = "0x000000FF".toList ∧
      intToFormattedHexString classicNumpunct 4294967295 = "0xFFFFFFFF".toList ∧
      (intToFormattedHexString classicNumpunct 3735928559).length = 10 ∧
      (intToFormattedHexString classicNumpunct 3735928559).drop 2 = "DEADBEEF".toList :=
  ⟨by decide, by decide, by decide,
    (intToFormattedHexString_format classicNumpunct rfl 3735928559 (by decide)).1,
    (intToFormattedHexString_format classicNumpunct rfl 3735928559 (by decide)).2.2.1.trans
      (by decide)⟩

/-- C7 fails on the code when the global locale groups digits by three: the stream
puts the thousands separator between the hexadecimal digits before it pads, so 4096
gives `0x0001,000`, whose last 8 characters are not all hexadecimal digits, and
3735928559 gives `0xDE,ADB,EEF`, which is 12 characters long; values below 4096 are
still formatted as the claim says (255 gives `0x000000FF`). -/
theorem intToFormattedHexString_grouping_locale :
    intToFormattedHexString groupingNumpunct 4096 = "0x0001,000".toList ∧
      ',' ∈ (intToFormattedHexString groupingNumpunct 4096).drop 2 ∧
      intToFormattedHexString groupingNumpunct 3735928559 = "0xDE,ADB,EEF".toList ∧
      (intToFormattedHexString groupingNumpunct 3735928559).length = 12 ∧
      intToFormattedHexString groupingNumpunct 4294967295 = "0xFF,FFF,FFF".toList ∧
      intToFormattedHexString groupingNumpunct 255 = "0x000000FF".toList := by
  refine ⟨?_, ?_, ?_, ?_, ?_, ?_⟩ <;> decide

/-- C8. `incrementMemoryIndex(val)`: for every prior `memoryIndex` `m` and every `val`
the new `memoryIndex` is `(m + 4 * val) mod 2^32`; in particular `val = 1` adds 4
(modulo `2^32`). -/
theorem incrementMemoryIndex_spec (m val : Nat) :
    incrementMemoryIndex m val = (m + 4 * val) % 2 ^ 32 ∧
      incrementMemoryIndex m 1 = (m + 4) % 2 ^ 32 := by
  unfold incrementMemoryIndex
  constructor
  · rw [Nat.add_mod_mod, Nat.mul_comm]
  · rfl

/-- C9. `handleKeyPress` never starts a file browse or a compile-and-load from the
keyboard while the simulator is `RUNNING`: `onBrowseClick` is invoked exactly when
the Jimulator state is not `RUNNING` and the key is `l` (108) with modifier state 4
or `L` (76) with modifier state 6; `onCompileLoadClick` is invoked exactly when the
Jimulator state is not `RUNNING`, the inner state is not `NO_FILE`, and the key is
`r` (114) with modifier state 4 or `R` (82) with modifier state 6. The function
always returns false. -/
theorem handleKeyPress_guards {κ : Type} (keyval state : Nat) (m : KoMo2Model κ) :
    ((handleKeyPress keyval state m).1 = some Handler.onBrowseClick ↔
        (m.jimulatorState ≠ JimulatorState.RUNNING ∧
          ((keyval = 108 ∧ state = 4) ∨ (keyval = 76 ∧ state = 6)))) ∧
      ((handleKeyPress keyval state m).1 = some Handler.onCompileLoadClick ↔
        (m.jimulatorState ≠ JimulatorState.RUNNING ∧
          m.compileLoadModel.innerState ≠ CompileLoadInnerState.NO_FILE ∧
          ((keyval = 114 ∧ state = 4) ∨ (keyval = 82 ∧ state = 6)))) ∧
      (handleKeyPress keyval state m).2 = false := by
  refine ⟨?_, ?_, rfl⟩
  · unfold handleKeyPress
    simp only []
    split_ifs <;> simp_all <;> tauto
  · unfold handleKeyPress
    simp only []
    split_ifs <;> simp_all <;> tauto

end KoMo2
